import Mathlib

/-!
Verification development for the multi-tenant report aggregation engine
(`app/services/report_service.py` and its orchestration in
`app/core/database.py`).

Modelling conventions:
* Python floats are modelled as exact rationals (`ℚ`); `round(x, 2)` is
  modelled as `round2`, two-decimal rounding with ties to even, matching
  Python's bankers rounding on the ideal (error-free) value.
* Python `str` is Lean `String`.  `str.upper()` is modelled for the ASCII
  letters plus the accented Spanish letters that occur in the data
  (`pyUpper`); `str.strip()` / `re.sub(r'\s+', ' ', _)` are modelled over
  the ASCII whitespace characters Python's `\s` matches on this data.
* Database cursors and the network are modelled by a `Conn` record holding
  each query's outcome: `Except Unit α` is a result that either raised
  (`.error`) or returned (`.ok`); SQL `NULL` is `Option`.
* Exception handlers in the source become the corresponding `match` on
  those outcomes; a caught exception takes the same fallback branch the
  `except:` block takes in the source.
-/

/-- The whitespace characters Python's `str.strip` and `\s+` treat as
blank: space, tab, newline, carriage return, vertical tab, form feed. -/
def isPySpace (c : Char) : Bool :=
  c = ' ' || c = '\t' || c = '\n' || c = '\r' || c = Char.ofNat 11 || c = Char.ofNat 12

/-- Python `str.upper` on one character, for ASCII letters and the accented
Spanish letters appearing in the repository's data. -/
def pyUpperChar (c : Char) : Char :=
  if 'a' ≤ c ∧ c ≤ 'z' then Char.ofNat (c.toNat - 32)
  else if c = 'á' ∨ c = 'é' ∨ c = 'í' ∨ c = 'ó' ∨ c = 'ú' ∨ c = 'ñ' ∨ c = 'ü' then
    Char.ofNat (c.toNat - 32)
  else c

/-- Python `str.upper`. -/
def pyUpper (s : String) : String := String.mk (s.data.map pyUpperChar)

/-- Python `str.strip`: drop leading and trailing whitespace. -/
def stripWs (l : List Char) : List Char :=
  ((l.dropWhile isPySpace).reverse.dropWhile isPySpace).reverse

/-- `re.sub(r'\s+', ' ', _)`: replace every maximal whitespace run by one
space. -/
def collapseWs (l : List Char) : List Char :=
  l.foldr
    (fun c acc =>
      if isPySpace c then
        match acc with
        | d :: _ => if d = ' ' then acc else ' ' :: acc
        | [] => [' ']
      else c :: acc)
    []

/-- `re.sub(r'\s+', ' ', name.strip().upper())` — the normalization both the
input name and every stored name go through in
`ReportService._get_agent_code_by_name` (report_service.py:35,39). -/
def normalizeName (s : String) : String :=
  String.mk (collapseWs (pyUpper (String.mk (stripWs s.data))).data)

/-- Python `str.split()` (no argument): split on whitespace runs, no empty
tokens.  `cur` holds the characters of the token being read, reversed. -/
def splitWsGo (cur : List Char) : List Char → List String
  | [] => if cur.isEmpty then [] else [String.mk cur.reverse]
  | c :: rest =>
    if isPySpace c then
      if cur.isEmpty then splitWsGo [] rest
      else String.mk cur.reverse :: splitWsGo [] rest
    else splitWsGo (c :: cur) rest

def splitTokens (s : String) : List String := splitWsGo [] s.data

/-- `set(normalized.split())` (report_service.py:46-47). -/
def tokenSet (s : String) : Finset String := (splitTokens (normalizeName s)).toFinset

/-- The stop set of legal-entity suffixes (report_service.py:50). -/
def commonWords : Finset String := (["S.A.S", "SAS", "S.A", "SA", "LTDA", "AGENCIA"]).toFinset

/-- `agent_words - common_words` (report_service.py:51-52). -/
def importantTokens (s : String) : Finset String := tokenSet s \ commonWords

/-- One record of `nin.json`: a display name `ac` and an identity code
`nin`. -/
structure NinItem where
  ac : String
  nin : String
deriving DecidableEq

/-- The token-overlap threshold test (report_service.py:56-57): the
important-token intersection has size at least
`max(1, 0.7 * |input important tokens|)`.  This is also the acceptance
condition as claim C5's spec sentence words it. -/
def fuzzyThresholdOK (name cand : String) : Bool :=
  decide ((1 : ℚ) ⊔ ((importantTokens name).card * (7 / 10)) ≤
    ((importantTokens name ∩ importantTokens cand).card : ℚ))

/-- The full fuzzy-match acceptance test of `_get_agent_code_by_name`
(report_service.py:54-58): both important-token sets nonempty (the Python
truthiness test on the two sets) and the threshold reached. -/
def fuzzyGuard (name cand : String) : Bool :=
  decide (0 < (importantTokens name).card) &&
    decide (0 < (importantTokens cand).card) && fuzzyThresholdOK name cand

/-- The candidate loop of `_get_agent_code_by_name`
(report_service.py:37-59): for each record in load order, first the exact
normalized comparison, then the fuzzy token test; first hit wins. -/
def agentCodeLoop (name : String) : List NinItem → String
  | [] => "UNKNOWN"
  | it :: rest =>
    if normalizeName name = normalizeName it.ac then it.nin
    else if fuzzyGuard name it.ac then it.nin
    else agentCodeLoop name rest

/-- `ReportService._get_agent_code_by_name` (report_service.py:29-60),
including the guard returning `"UNKNOWN"` for an empty name or an empty
identity table (line 31-32). -/
def get_agent_code_by_name (nin_data : List NinItem) (agent_name : String) : String :=
  if agent_name = "" ∨ nin_data = [] then "UNKNOWN"
  else agentCodeLoop agent_name nin_data

/-- `ReportService._get_agent_name_by_subdomain` (report_service.py:715-727):
a fixed seven-entry table with an upper-cased default. -/
def agentNameTable : List (String × String) :=
  [("1030773", "A.H.H. DISTRIBUCIONES S.A.S"),
   ("1089723", "AGENCIA COMERCIAL NUTRICOL SAS"),
   ("comercruz", "COMERCRUZ DISTRIBUCIONES"),
   ("santiagodetunja", "SANTIAGO DE TUNJA COMERCIAL"),
   ("maxgol", "MAXGOL DISTRIBUCIONES"),
   ("distrimarcasagentecomercial", "DISTRIMARCAS AGENTE COMERCIAL"),
   ("jyddistribuciones", "JYD DISTRIBUCIONES")]

def get_agent_name_by_subdomain (subdomain : String) : String :=
  match agentNameTable.find? (fun p => p.1 == subdomain) with
  | some p => p.2
  | none => "AGENCIA COMERCIAL " ++ pyUpper subdomain

/-- Two-decimal rounding with ties to even (Python `round(x, 2)` on the
ideal value): the integer nearest to `100 * x`, halves to even. -/
def roundTiesEven (x : ℚ) : ℤ :=
  if x - Int.floor x < 1 / 2 then Int.floor x
  else if 1 / 2 < x - Int.floor x then Int.floor x + 1
  else if Even (Int.floor x) then Int.floor x else Int.floor x + 1

def round2 (x : ℚ) : ℚ := (roundTiesEven (100 * x) : ℚ) / 100

/-- The value `_format_period` can receive: `None`, a Python `int`, a
date-like object with `month`/`year` attributes, or anything else. -/
inductive PeriodValue where
  | none : PeriodValue
  | int (n : ℤ) : PeriodValue
  | date (month year : ℤ) : PeriodValue
  | other : PeriodValue
deriving DecidableEq

/-- Python truthiness of a `PeriodValue`: `None` and `0` are falsy. -/
def pyTruthy : PeriodValue → Bool
  | .none => false
  | .int n => n != 0
  | .date _ _ => true
  | .other => true

/-- The fixed Spanish month-name table of `_format_period`
(report_service.py:740-744), looked up with default `""` (line 746). -/
def monthNameTable : List (ℤ × String) :=
  [(1, "Enero"), (2, "Febrero"), (3, "Marzo"), (4, "Abril"),
   (5, "Mayo"), (6, "Junio"), (7, "Julio"), (8, "Agosto"),
   (9, "Septiembre"), (10, "Octubre"), (11, "Noviembre"), (12, "Diciembre")]

def monthName (m : ℤ) : String :=
  match monthNameTable.find? (fun p => p.1 == m) with
  | some p => p.2
  | none => ""

/-- `ReportService._format_period` (report_service.py:729-750).  The falsy
check `if not period_start` runs first, so the integer `0` never reaches
the `isinstance(period_start, int)` branch. -/
def format_period : PeriodValue → String
  | .none => "Periodo Desconocido"
  | .int n => if n = 0 then "Periodo Desconocido" else "Periodo " ++ toString n
  | .date m y => monthName m ++ " " ++ toString y
  | .other => "Periodo Desconocido"

/-- One row of the externally visible report: the value of each key of the
row dictionaries built in report_service.py (see `mockRowKeys` and friends
for the key sets themselves). -/
structure ReportRow where
  codigo_agente : String
  nombre_agente : String
  periodo_tiempo : String
  «variable» : String
  meta_asignada : ℚ
  meta_distribuida : ℚ
  porcentaje_meta : ℚ
  incentivo_asignado : ℚ
  incentivo_distribuido : ℚ
  porcentaje_variables_completadas : ℚ
  porcentaje_ejecucion_incentivo : ℚ
  user_id : Option ℤ
  program_id : ℤ
deriving DecidableEq

/-- One entry of the hardcoded `mock_variables_data` table
(report_service.py:148-197). -/
structure MockVar where
  variable_name : String
  total_meta_asignada : ℚ
  total_meta_distribuida : ℚ
  total_incentivo_asignado : ℚ
  total_incentivo_distribuido : ℚ
  porcentaje_variables_completadas : ℚ
deriving DecidableEq

def mock_variables_data : List MockVar :=
  [⟨"CSI - Frijoles Zenú 2da Etapa", 0, 0, 0, 0, 0⟩,
   ⟨"CSI - Snack de Película", 3, 0, 150, 0, 0⟩,
   ⟨"CSI - Tosh Manzanilla Limoncillo 2da Etapa", 0, 0, 0, 0, 0⟩,
   ⟨"CSI- Ahorramax 2da Etapa AU", 0, 0, 0, 0, 0⟩,
   ⟨"CSI- Ahorramax 2da Etapa TD", 0, 0, 0, 0, 0⟩,
   ⟨"DN - La Especial Nueces", 1327, 0, 500, 0, 0⟩]

/-- One row of the mock dataset (report_service.py:201-223): the compliance
percentage is guarded by `total_meta_asignada > 0`, the incentive-execution
percentage is the literal `0.0`, `user_id` is `None`, `program_id` is 1 and
the period label is the literal string `"Periodo <period_id>"`. -/
def mkMockRow (nin_data : List NinItem) (subdomain : String) (period_id : ℤ) (v : MockVar) : ReportRow :=
  ⟨get_agent_code_by_name nin_data (get_agent_name_by_subdomain subdomain),
   get_agent_name_by_subdomain subdomain,
   "Periodo " ++ toString period_id,
   v.variable_name,
   v.total_meta_asignada,
   v.total_meta_distribuida,
   (if 0 < v.total_meta_asignada then round2 (v.total_meta_distribuida / v.total_meta_asignada * 100) else 0),
   v.total_incentivo_asignado,
   v.total_incentivo_distribuido,
   v.porcentaje_variables_completadas,
   0,
   Option.none,
   1⟩

/-- `ReportService._get_mock_data_new_structure` (report_service.py:143-225). -/
def get_mock_data_new_structure (nin_data : List NinItem) (subdomain : String) (period_id : ℤ) : List ReportRow :=
  mock_variables_data.map (mkMockRow nin_data subdomain period_id)

/-- One tuple of the main (or simplified) query result, unpacked
positionally at report_service.py:377-380 / 593-596.  `Option` marks the
columns whose value can be SQL `NULL` (passed through `float(x or 0)` or a
truthiness test in the source); the SQL literals `2 as user_id` /
`1 as program_id` arrive as plain integers. -/
structure QueryRow where
  variable_name : String
  variable_id : ℤ
  meta_asignada_agente : Option ℚ
  meta_distribuida_vendors : ℚ
  resultados_agente : Option ℚ
  resultados_vendors : ℚ
  cumplimiento_porcentaje : ℚ
  incentivo_asignado_puntos : Option ℚ
  point_value : Option ℚ
  user_id : ℤ
  program_id : ℤ
deriving DecidableEq

/-- The per-variable accumulator `variables_data[variable_name]`
(report_service.py:388-399). -/
structure VarData where
  variable_id : ℤ
  total_meta_asignada : ℚ
  total_meta_distribuida : ℚ
  total_resultados_agente : ℚ
  total_resultados_vendors : ℚ
  total_incentivo_asignado : ℚ
  total_incentivo_distribuido : ℚ
  user_id : ℤ
  program_id : ℤ
  point_value : ℚ
deriving DecidableEq

/-- `distributed_incentives.get(variable_id, 0.0)`
(report_service.py:409,625) over the mapping built by
`_get_distributed_incentives`. -/
def distLookup (dist : List (ℤ × ℚ)) (id : ℤ) : ℚ :=
  match dist.find? (fun p => p.1 == id) with
  | some p => p.2
  | none => 0

/-- `float(point_value) if point_value else 500.0`
(report_service.py:398,614): `None` and `0.0` are falsy. -/
def pointValueOf : Option ℚ → ℚ
  | Option.none => 500
  | some v => if v = 0 then 500 else v

/-- A freshly initialised accumulator for the first row of a variable group
(report_service.py:388-399): context fields from the row, totals zero. -/
def initVarData (r : QueryRow) : VarData :=
  ⟨r.variable_id, 0, 0, 0, 0, 0, 0, r.user_id, r.program_id, pointValueOf r.point_value⟩

/-- The accumulation step (report_service.py:402-410): add this row's
values to the group's totals; the distributed incentive is looked up by
this row's `variable_id`. -/
def accumRow (dist : List (ℤ × ℚ)) (vd : VarData) (r : QueryRow) : VarData :=
  ⟨vd.variable_id,
   vd.total_meta_asignada + (r.meta_asignada_agente.getD 0),
   vd.total_meta_distribuida + r.meta_distribuida_vendors,
   vd.total_resultados_agente + (r.resultados_agente.getD 0),
   vd.total_resultados_vendors + r.resultados_vendors,
   vd.total_incentivo_asignado + (r.incentivo_asignado_puntos.getD 0),
   vd.total_incentivo_distribuido + distLookup dist r.variable_id,
   vd.user_id, vd.program_id, vd.point_value⟩

/-- The variable-exclusion test (report_service.py:383-384): skip a row
whose display name contains the budget-execution variable. -/
def matchesAt (pat : List Char) : List Char → Bool
  | [] => pat.isEmpty
  | c :: rest =>
    match pat with
    | [] => true
    | p :: ps => (p == c && matchesAt ps rest) || false

/-- Python `pat in s` (substring containment). -/
def containsSubL (pat : List Char) : List Char → Bool
  | [] => pat.isEmpty
  | c :: rest => matchesAt pat (c :: rest) || containsSubL pat rest

def skipVariable (name : String) : Bool :=
  containsSubL "Ejecución Presupuestal".data name.data ||
    containsSubL "EJECUCIÓN PRESUPUESTAL".data (pyUpper name).data

/-- Update the entry with key `k` of an insertion-ordered association list
(the model of Python's insertion-ordered `dict`), leaving order intact. -/
def updateAssoc (k : String) (f : VarData → VarData) (l : List (String × VarData)) :
    List (String × VarData) :=
  l.map (fun e => if e.1 = k then (e.1, f e.2) else e)

/-- One iteration of the grouping loop (report_service.py:377-410): skip
excluded variables, create the group on first sight, then accumulate. -/
def insertRow (dist : List (ℤ × ℚ)) (acc : List (String × VarData)) (r : QueryRow) :
    List (String × VarData) :=
  if skipVariable r.variable_name then acc
  else if (acc.find? (fun e => e.1 == r.variable_name)).isSome then
    updateAssoc r.variable_name (fun vd => accumRow dist vd r) acc
  else
    acc ++ [(r.variable_name, accumRow dist (initVarData r) r)]

/-- `variables_data` after the grouping loop (report_service.py:375-410). -/
def buildVariablesData (dist : List (ℤ × ℚ)) (rows : List QueryRow) :
    List (String × VarData) :=
  rows.foldl (insertRow dist) []

/-- Sum of one accumulator field over all groups — the `period_totals`
accumulation of report_service.py:454-458. -/
def varsSum (f : VarData → ℚ) (vars : List (String × VarData)) : ℚ :=
  (vars.map (fun e => f e.2)).sum

/-- `completed_variables` (report_service.py:414-416): groups with positive
assigned goal whose distributed goal reached it. -/
def completedCount (vars : List (String × VarData)) : ℕ :=
  (vars.filter (fun e =>
    decide (0 < e.2.total_meta_asignada) &&
    decide (e.2.total_meta_asignada ≤ e.2.total_meta_distribuida))).length

/-- One per-variable report row (report_service.py:419-450): percentages
guarded by their own assigned totals, every money field rounded to two
decimals, `cpct` the tenant-wide completed-variables percentage. -/
def mkVarRow (nin_data : List NinItem) (subdomain : String) (period_info : String)
    (cpct : ℚ) (e : String × VarData) : ReportRow :=
  ⟨get_agent_code_by_name nin_data (get_agent_name_by_subdomain subdomain),
   get_agent_name_by_subdomain subdomain,
   period_info,
   e.1,
   round2 e.2.total_meta_asignada,
   round2 e.2.total_meta_distribuida,
   (if 0 < e.2.total_meta_asignada then
      round2 (e.2.total_meta_distribuida / e.2.total_meta_asignada * 100) else 0),
   round2 e.2.total_incentivo_asignado,
   round2 e.2.total_incentivo_distribuido,
   round2 cpct,
   (if 0 < e.2.total_incentivo_asignado then
      round2 (e.2.total_incentivo_distribuido / e.2.total_incentivo_asignado * 100) else 0),
   some e.2.user_id,
   e.2.program_id⟩

/-- The TOTAL row (report_service.py:460-489): note its compliance
percentage is guarded by `total_meta_distribuida > 0` (line 468), not by
the assigned total. -/
def mkTotalRow (nin_data : List NinItem) (subdomain : String) (period_info : String)
    (sma smd sia sid : ℚ) (completed total : ℕ) : ReportRow :=
  ⟨get_agent_code_by_name nin_data (get_agent_name_by_subdomain subdomain),
   get_agent_name_by_subdomain subdomain,
   period_info,
   "TOTAL",
   round2 sma,
   round2 smd,
   (if 0 < smd then round2 (smd / sma * 100) else 0),
   round2 sia,
   round2 sid,
   (if 0 < total then round2 ((completed : ℚ) / total * 100) else 0),
   (if 0 < sia then round2 (sid / sia * 100) else 0),
   Option.none,
   1⟩

/-- Rows-and-total construction from the grouped data
(report_service.py:412-492, identically 628-707).  When
`total_meta_distribuida > 0` while `total_meta_asignada = 0` the source
raises `ZeroDivisionError` at line 470, which the enclosing handler turns
into the mock dataset — the second branch. -/
def buildReport (nin_data : List NinItem) (subdomain : String) (period_id : ℤ)
    (period_info : String) (vars : List (String × VarData)) : List ReportRow :=
  let total := vars.length
  let completed := completedCount vars
  let cpct : ℚ := if 0 < total then round2 ((completed : ℚ) / total * 100) else 0
  let sma := varsSum VarData.total_meta_asignada vars
  let smd := varsSum VarData.total_meta_distribuida vars
  let sia := varsSum VarData.total_incentivo_asignado vars
  let sid := varsSum VarData.total_incentivo_distribuido vars
  if 0 < smd ∧ sma = 0 then get_mock_data_new_structure nin_data subdomain period_id
  else if vars.isEmpty then []
  else vars.map (mkVarRow nin_data subdomain period_info cpct) ++
    [mkTotalRow nin_data subdomain period_info sma smd sia sid completed total]

/-- The shared tail of `_get_real_data_optimized` and
`_get_simplified_data` (report_service.py:359-492 / 576-707): group the
fetched tuples, then build the rows and the TOTAL row. -/
def processQueryRows (nin_data : List NinItem) (dist : List (ℤ × ℚ)) (subdomain : String)
    (period_id : ℤ) (period_info : String) (rows : List QueryRow) : List ReportRow :=
  buildReport nin_data subdomain period_id period_info (buildVariablesData dist rows)

/-- The eight table names `_check_tables_exist` probes for
(report_service.py:125). -/
def requiredTables : List String :=
  ["users", "people", "liquidations", "roles", "programs_users", "programs",
   "variables", "periods"]

/-- One tenant connection, modelled by the outcome of each query the
pipeline can run on it.  `tablesQueryFails` / `liqCountFails` say the
corresponding probe query raises when executed; `Except.error` marks a
raising query, `Except.ok` a fetched result. -/
structure Conn where
  schema : List String
  tablesQueryFails : Bool
  liqCountFails : Bool
  distResult : Except Unit (List (ℤ × Option ℚ))
  mainResult : Except Unit (List QueryRow)
  simpleResult : Except Unit (List QueryRow)
  periodStart : Except Unit (Option PeriodValue)

/-- The tables present among the eight required ones — the result set of
the `information_schema.tables` query (report_service.py:122-128). -/
def presentTables (c : Conn) : List String :=
  requiredTables.filter (fun t => c.schema.contains t)

/-- `ReportService._check_tables_exist` (report_service.py:116-141): count
the required tables present; a raised query (the probe itself, or the
`COUNT(*) FROM liquidations` run when that table exists) is caught and
yields `False`. -/
def check_tables_exist (c : Conn) : Bool :=
  if c.tablesQueryFails then false
  else if (presentTables c).contains "liquidations" && c.liqCountFails then false
  else 6 ≤ (presentTables c).length

/-- Build the `variable_id -> total` dictionary from the incentive query's
rows (report_service.py:269-272): later rows overwrite earlier ones with
the same key, `NULL` totals become `0`. -/
def upsertDist (acc : List (ℤ × ℚ)) (row : ℤ × Option ℚ) : List (ℤ × ℚ) :=
  if (acc.find? (fun p => p.1 == row.1)).isSome then
    acc.map (fun p => if p.1 = row.1 then (p.1, row.2.getD 0) else p)
  else acc ++ [(row.1, row.2.getD 0)]

/-- `ReportService._get_distributed_incentives` (report_service.py:227-280):
a raising query is caught and yields the empty mapping. -/
def get_distributed_incentives (c : Conn) : List (ℤ × ℚ) :=
  match c.distResult with
  | Except.error _ => []
  | Except.ok rows => rows.foldl upsertDist []

/-- `ReportService._get_period_info` (report_service.py:816-834): format the
period's start date when the query returns a truthy one, otherwise (no row,
falsy value, or a raised query) the literal `"Periodo <period_id>"`. -/
def get_period_info (c : Conn) (period_id : ℤ) : String :=
  match c.periodStart with
  | Except.error _ => "Periodo " ++ toString period_id
  | Except.ok Option.none => "Periodo " ++ toString period_id
  | Except.ok (some v) =>
    if pyTruthy v then format_period v else "Periodo " ++ toString period_id

/-- `ReportService._get_simplified_data` (report_service.py:500-713): a
raised query or an empty result falls back to the mock dataset, otherwise
the shared grouping/derivation tail runs. -/
def get_simplified_data (nin_data : List NinItem) (c : Conn) (subdomain : String)
    (period_id : ℤ) : List ReportRow :=
  match c.simpleResult with
  | Except.error _ => get_mock_data_new_structure nin_data subdomain period_id
  | Except.ok rows =>
    if rows.isEmpty then get_mock_data_new_structure nin_data subdomain period_id
    else
      processQueryRows nin_data (get_distributed_incentives c) subdomain period_id
        (get_period_info c period_id) rows

/-- `ReportService._get_real_data_optimized` (report_service.py:282-498): a
raised main query is caught into the mock dataset, an empty result tries
the simplified query, otherwise the shared tail runs. -/
def get_real_data_optimized (nin_data : List NinItem) (c : Conn) (subdomain : String)
    (period_id : ℤ) : List ReportRow :=
  match c.mainResult with
  | Except.error _ => get_mock_data_new_structure nin_data subdomain period_id
  | Except.ok rows =>
    if rows.isEmpty then get_simplified_data nin_data c subdomain period_id
    else
      processQueryRows nin_data (get_distributed_incentives c) subdomain period_id
        (get_period_info c period_id) rows

/-- Outcome of `db_manager.get_connection(subdomain)`: a raised connection
error, or a usable connection. -/
inductive ConnResult where
  | fail : ConnResult
  | ok (c : Conn) : ConnResult

/-- The engine's environment: the configured tenant registry in its
iteration order (`db_manager.get_available_subdomains()`) and the
connection factory. -/
structure Env where
  subdomains : List String
  connect : String → ConnResult

/-- `ReportService._get_subdomain_data` (report_service.py:97-114): any
exception — connection acquisition included — is caught into the mock
dataset; a schema probe rejection also takes the mock path. -/
def get_subdomain_data (env : Env) (nin_data : List NinItem) (subdomain : String)
    (period_id : ℤ) : List ReportRow :=
  match env.connect subdomain with
  | ConnResult.fail => get_mock_data_new_structure nin_data subdomain period_id
  | ConnResult.ok c =>
    if check_tables_exist c then get_real_data_optimized nin_data c subdomain period_id
    else get_mock_data_new_structure nin_data subdomain period_id

/-- The aggregated report returned by `generate_report`
(report_service.py:90-95). -/
structure Report where
  data : List ReportRow
  total_records : ℕ
  subdomains_processed : List String
  generated_at : String

/-- `ReportService.generate_report` (report_service.py:62-95): iterate the
registry in order, extend the data with each tenant's rows and append the
tenant to the processed list; `datetime.now().isoformat()` is passed in as
`now`. -/
def generate_report (env : Env) (nin_data : List NinItem) (period_id : ℤ)
    (now : String) : Report :=
  let r := env.subdomains.foldl
    (fun (acc : List ReportRow × List String) sub =>
      (acc.1 ++ get_subdomain_data env nin_data sub period_id, acc.2 ++ [sub]))
    ([], [])
  ⟨r.1, r.1.length, r.2, now⟩

/-- The key list of the mock row dictionary (report_service.py:208-222), in
source order. -/
def mockRowKeys : List String :=
  ["codigo_agente", "nombre_agente", "periodo_tiempo", "variable",
   "meta_asignada", "meta_distribuida", "porcentaje_meta",
   "incentivo_asignado", "incentivo_distribuido",
   "porcentaje_variables_completadas", "porcentaje_ejecucion_incentivo",
   "user_id", "program_id"]

/-- The key list of the real-path per-variable row dictionary
(report_service.py:436-450). -/
def realRowKeys : List String :=
  ["codigo_agente", "nombre_agente", "periodo_tiempo", "variable",
   "meta_asignada", "meta_distribuida", "porcentaje_meta",
   "incentivo_asignado", "incentivo_distribuido",
   "porcentaje_variables_completadas", "porcentaje_ejecucion_incentivo",
   "user_id", "program_id"]

/-- The key list of the real-path TOTAL row dictionary
(report_service.py:475-489). -/
def realTotalRowKeys : List String :=
  ["codigo_agente", "nombre_agente", "periodo_tiempo", "variable",
   "meta_asignada", "meta_distribuida", "porcentaje_meta",
   "incentivo_asignado", "incentivo_distribuido",
   "porcentaje_variables_completadas", "porcentaje_ejecucion_incentivo",
   "user_id", "program_id"]

/-- The key list of the simplified-path per-variable row dictionary
(report_service.py:651-665). -/
def simplifiedRowKeys : List String :=
  ["codigo_agente", "nombre_agente", "periodo_tiempo", "variable",
   "meta_asignada", "meta_distribuida", "porcentaje_meta",
   "incentivo_asignado", "incentivo_distribuido",
   "porcentaje_variables_completadas", "porcentaje_ejecucion_incentivo",
   "user_id", "program_id"]

/-- The key list of the simplified-path TOTAL row dictionary
(report_service.py:690-704). -/
def simplifiedTotalRowKeys : List String :=
  ["codigo_agente", "nombre_agente", "periodo_tiempo", "variable",
   "meta_asignada", "meta_distribuida", "porcentaje_meta",
   "incentivo_asignado", "incentivo_distribuido",
   "porcentaje_variables_completadas", "porcentaje_ejecucion_incentivo",
   "user_id", "program_id"]

/-- A rational that is exact at two decimals (an integer number of
hundredths). -/
def cent (x : ℚ) : Prop := ∃ n : ℤ, x = (n : ℚ) / 100

theorem roundTiesEven_intCast (n : ℤ) : roundTiesEven (n : ℚ) = n := by
  unfold roundTiesEven
  rw [Int.floor_intCast]
  norm_num

theorem round2_cent {x : ℚ} (h : cent x) : round2 x = x := by
  obtain ⟨n, rfl⟩ := h
  unfold round2
  have h100 : (100 : ℚ) * ((n : ℚ) / 100) = (n : ℚ) := by field_simp
  rw [h100, roundTiesEven_intCast]

theorem cent_round2 (x : ℚ) : cent (round2 x) := ⟨roundTiesEven (100 * x), rfl⟩

theorem round2_round2 (x : ℚ) : round2 (round2 x) = round2 x :=
  round2_cent (cent_round2 x)

theorem round2_zero : round2 0 = 0 := by
  have : cent 0 := ⟨0, by norm_num⟩
  exact round2_cent this

theorem cent_add {x y : ℚ} (hx : cent x) (hy : cent y) : cent (x + y) := by
  obtain ⟨n, rfl⟩ := hx
  obtain ⟨m, rfl⟩ := hy
  exact ⟨n + m, by push_cast; ring⟩

theorem cent_sum {l : List ℚ} (h : ∀ x ∈ l, cent x) : cent l.sum := by
  induction l with
  | nil => exact ⟨0, by norm_num⟩
  | cons a t ih =>
    rw [List.sum_cons]
    exact cent_add (h a (List.mem_cons_self a t)) (ih fun x hx => h x (List.mem_cons_of_mem a hx))

/-- `x / y * 100` (as the source writes the percentages) equals
`100 * x / y` (as the spec writes them). -/
theorem pct_comm (x y : ℚ) : x / y * 100 = 100 * x / y := by ring

/-- C8: every row dictionary built by the mock path, the real path and the
simplified path — per-variable rows and TOTAL rows alike — carries exactly
the same field names (including `porcentaje_ejecucion_incentivo`, `user_id`
and `program_id`), so no row's field set reveals which path produced it. -/
theorem row_field_sets_identical :
    mockRowKeys = realRowKeys ∧ mockRowKeys = simplifiedRowKeys ∧
      mockRowKeys = realTotalRowKeys ∧ mockRowKeys = simplifiedTotalRowKeys ∧
      "porcentaje_ejecucion_incentivo" ∈ mockRowKeys ∧
      "user_id" ∈ mockRowKeys ∧ "program_id" ∈ mockRowKeys := by
  refine ⟨rfl, rfl, rfl, rfl, ?_, ?_, ?_⟩ <;> decide

/-- C9 counterexample: the period formatter does not return
`"Periodo 0"` for the integer `0` — the Python falsy test
`if not period_start` catches `0` first and yields
`"Periodo Desconocido"`. -/
theorem format_period_zero_not_periodo_zero :
    format_period (PeriodValue.int 0) = "Periodo Desconocido" ∧
      format_period (PeriodValue.int 0) ≠ "Periodo " ++ toString (0 : ℤ) := by
  constructor
  · rfl
  · decide

/-- C9 (amended): the period formatter returns `"Periodo Desconocido"` for
null input, `"Periodo <n>"` for every nonzero integer `n` (the integer `0`
is falsy and also yields `"Periodo Desconocido"`),
`"<SpanishMonthName> <Year>"` via the fixed month table for date-like
input, and the unknown label for any other input type; it is a total
function, so it never raises. -/
theorem format_period_branches : ∀ (n m y : ℤ),
    format_period PeriodValue.none = "Periodo Desconocido" ∧
      (n ≠ 0 → format_period (PeriodValue.int n) = "Periodo " ++ toString n) ∧
      format_period (PeriodValue.int 0) = "Periodo Desconocido" ∧
      format_period (PeriodValue.date m y) = monthName m ++ " " ++ toString y ∧
      format_period PeriodValue.other = "Periodo Desconocido" := by
  intro n m y
  refine ⟨rfl, ?_, rfl, rfl, rfl⟩
  intro h
  simp [format_period, h]

/-- C10: the mock generator is a function of the subdomain and period only
(hence deterministic); it returns exactly 6 rows, one per fixed variable
name in a fixed order, contains no TOTAL row, and every row carries the
literal period label `"Periodo <period_id>"`, a zero incentive-execution
percentage, a zero completed-variables percentage, `user_id = None` and
`program_id = 1`. -/
theorem mock_data_shape : ∀ (nin_data : List NinItem) (subdomain : String) (period_id : ℤ),
    (get_mock_data_new_structure nin_data subdomain period_id).length = 6 ∧
      (get_mock_data_new_structure nin_data subdomain period_id).map ReportRow.«variable» =
        ["CSI - Frijoles Zenú 2da Etapa", "CSI - Snack de Película",
         "CSI - Tosh Manzanilla Limoncillo 2da Etapa", "CSI- Ahorramax 2da Etapa AU",
         "CSI- Ahorramax 2da Etapa TD", "DN - La Especial Nueces"] ∧
      List.Forall
        (fun r : ReportRow =>
          r.«variable» ≠ "TOTAL" ∧
          r.periodo_tiempo = "Periodo " ++ toString period_id ∧
          r.porcentaje_ejecucion_incentivo = 0 ∧
          r.porcentaje_variables_completadas = 0 ∧
          r.user_id = Option.none ∧
          r.program_id = 1)
        (get_mock_data_new_structure nin_data subdomain period_id) := by
  intro nin_data subdomain period_id
  refine ⟨rfl, rfl, ?_⟩
  rw [List.forall_iff_forall_mem]
  intro r hr
  rw [get_mock_data_new_structure] at hr
  rcases List.mem_map.1 hr with ⟨v, hv, rfl⟩
  simp only [mock_variables_data, List.mem_cons, List.not_mem_nil, or_false] at hv
  rcases hv with rfl | rfl | rfl | rfl | rfl | rfl <;>
    exact ⟨by intro hcontra; simp [mkMockRow] at hcontra, rfl, rfl, rfl, rfl, rfl⟩

/-- The probe queries of `_check_tables_exist` that can raise: the
`information_schema` listing itself, or the `COUNT(*) FROM liquidations`
that runs exactly when `liquidations` was listed. -/
def probeFailure (c : Conn) : Prop :=
  c.tablesQueryFails = true ∨ ((presentTables c).contains "liquidations" = true ∧ c.liqCountFails = true)

/-- C6: when no probe query fails, `_check_tables_exist` returns `True` iff
at least 6 of the fixed 8 required table names exist in the tenant's
schema; and any probe query failure yields `False` (the error is caught,
never propagated — the function is total). -/
theorem check_tables_exist_spec : ∀ c : Conn,
    (¬ probeFailure c → (check_tables_exist c = true ↔ 6 ≤ (presentTables c).length)) ∧
      (probeFailure c → check_tables_exist c = false) ∧
      requiredTables.length = 8 := by
  intro c
  refine ⟨?_, ?_, rfl⟩
  · intro h
    rw [probeFailure] at h
    push_neg at h
    rw [check_tables_exist]
    have hq : c.tablesQueryFails = false := by
      cases hg : c.tablesQueryFails
      · rfl
      · exact absurd hg h.1
    rw [hq]
    cases hl : (presentTables c).contains "liquidations"
    · simp [decide_eq_true_eq]
    · have hc : c.liqCountFails = false := by
        cases hg : c.liqCountFails
        · rfl
        · exact absurd hg (h.2 hl)
      rw [hc]
      simp [decide_eq_true_eq]
  · intro h
    rw [check_tables_exist]
    rcases h with hq | ⟨hl, hc⟩
    · simp [hq]
    · cases hq : c.tablesQueryFails
      · rw [hl, hc]
        simp
      · simp

/-- The code's fuzzy guard equals the bare threshold test: whenever the
intersection reaches `max(1, 0.7 * |input important tokens|) ≥ 1` it is
nonempty, which already forces both important-token sets nonempty, so the
two truthiness tests of report_service.py:54 never reject a candidate the
threshold accepts. -/
theorem fuzzyGuard_eq (name cand : String) :
    fuzzyGuard name cand = fuzzyThresholdOK name cand := by
  rw [fuzzyGuard]
  cases hT : fuzzyThresholdOK name cand
  · simp
  · rw [fuzzyThresholdOK] at hT
    have hq := of_decide_eq_true hT
    have hone : (1 : ℚ) ≤ ((importantTokens name ∩ importantTokens cand).card : ℚ) :=
      le_trans (le_max_left _ _) hq
    have hpos : 0 < (importantTokens name ∩ importantTokens cand).card := by
      exact_mod_cast lt_of_lt_of_le one_pos hone
    have h1 : 0 < (importantTokens name).card :=
      lt_of_lt_of_le hpos (Finset.card_le_card Finset.inter_subset_left)
    have h2 : 0 < (importantTokens cand).card :=
      lt_of_lt_of_le hpos (Finset.card_le_card Finset.inter_subset_right)
    simp [h1, h2]

/-- An empty input name has no important tokens, so it can never reach the
threshold of at least one shared token. -/
theorem fuzzyThresholdOK_empty_name (cand : String) :
    fuzzyThresholdOK "" cand = false := by
  have h0 : importantTokens "" = ∅ := by decide
  rw [fuzzyThresholdOK, h0]
  apply decide_eq_false
  rw [Finset.empty_inter, Finset.card_empty]
  norm_num [max_def]

/-- In the absence of an exact normalized match anywhere in the table, the
candidate loop returns the first record clearing the token threshold, or
`"UNKNOWN"`. -/
theorem agentCodeLoop_eq_find (name : String) (l : List NinItem)
    (hnoexact : ∀ it ∈ l, normalizeName it.ac ≠ normalizeName name) :
    agentCodeLoop name l =
      match l.find? (fun it => fuzzyThresholdOK name it.ac) with
      | some it => it.nin
      | none => "UNKNOWN" := by
  induction l with
  | nil => rfl
  | cons it rest ih =>
    rw [agentCodeLoop,
      if_neg (fun h => hnoexact it (List.mem_cons_self it rest) h.symm), fuzzyGuard_eq]
    rcases Bool.eq_false_or_eq_true (fuzzyThresholdOK name it.ac) with hT | hT
    · rw [if_pos hT, List.find?_cons_of_pos _ (by simp [hT])]
    · rw [if_neg (by simp [hT]), List.find?_cons_of_neg _ (by simp [hT])]
      exact ih fun j hj => hnoexact j (List.mem_cons_of_mem it hj)

/-- C5: when no record's normalized name equals the normalized input name,
`_get_agent_code_by_name` returns the code of the first record in load
order whose important-token intersection with the input reaches
`max(1, 0.7 * |input important tokens|)` (the stop set removed from both
sides), and the literal `"UNKNOWN"` when no record clears the threshold or
the identity table is empty. -/
theorem fuzzy_first_clearing_record_wins (nin_data : List NinItem) (name : String)
    (hnoexact : ∀ it ∈ nin_data, normalizeName it.ac ≠ normalizeName name) :
    get_agent_code_by_name nin_data name =
      match nin_data.find? (fun it => fuzzyThresholdOK name it.ac) with
      | some it => it.nin
      | none => "UNKNOWN" := by
  rw [get_agent_code_by_name]
  by_cases hname : name = ""
  · subst hname
    rw [if_pos (Or.inl rfl)]
    have hfind : nin_data.find? (fun it => fuzzyThresholdOK "" it.ac) = Option.none := by
      rw [List.find?_eq_none]
      intro it _
      simp [fuzzyThresholdOK_empty_name]
    rw [hfind]
  · by_cases hnil : nin_data = []
    · subst hnil
      rw [if_pos (Or.inr rfl)]
      rfl
    · rw [if_neg (by simp [hname, hnil])]
      exact agentCodeLoop_eq_find name nin_data hnoexact

/-- Witness for C5 at a concrete table and name with no exact match. -/
theorem fuzzy_first_clearing_record_wins_witness :
    get_agent_code_by_name [⟨"ZZZ", "Z"⟩] "foo" =
      match [NinItem.mk "ZZZ" "Z"].find? (fun it => fuzzyThresholdOK "foo" it.ac) with
      | some it => it.nin
      | none => "UNKNOWN" :=
  fuzzy_first_clearing_record_wins [⟨"ZZZ", "Z"⟩] "foo" (by decide)

/-- C4 counterexample: the table holds an exact-match record
(`ac = "ACME"`, code `"B"`) for the input `"ACME"`, but an earlier record
(`"ACME CORP"`, code `"A"`) clears the 70% token-overlap threshold first,
so the resolver returns `"A"`, not the exact-match record's `"B"` — the
exact match does not win regardless of preceding records. -/
theorem exact_match_shadowed_by_earlier_fuzzy :
    get_agent_code_by_name [⟨"ACME CORP", "A"⟩, ⟨"ACME", "B"⟩] "ACME" = "A" ∧
      normalizeName (NinItem.mk "ACME" "B").ac = normalizeName "ACME" ∧
      ("A" : String) ≠ "B" := by
  have h1 : (importantTokens "ACME").card = 1 := by decide
  have h3 : (importantTokens "ACME" ∩ importantTokens "ACME CORP").card = 1 := by decide
  have hprop : (1 : ℚ) ⊔ ((importantTokens "ACME").card * (7 / 10)) ≤
      ((importantTokens "ACME" ∩ importantTokens "ACME CORP").card : ℚ) := by
    rw [h1, h3]
    norm_num [max_def]
  have hfz : fuzzyGuard "ACME" "ACME CORP" = true := by
    rw [fuzzyGuard_eq, fuzzyThresholdOK]
    exact decide_eq_true hprop
  refine ⟨?_, rfl, by decide⟩
  rw [get_agent_code_by_name, if_neg (by simp), agentCodeLoop, if_neg (by decide),
    if_pos hfz]

/-- The candidate loop skips every leading record that neither matches
exactly nor clears the fuzzy guard. -/
theorem agentCodeLoop_append_skip (name : String) (l : List NinItem) :
    ∀ pre : List NinItem,
      (∀ j ∈ pre, normalizeName j.ac ≠ normalizeName name ∧ fuzzyGuard name j.ac = false) →
      agentCodeLoop name (pre ++ l) = agentCodeLoop name l := by
  intro pre
  induction pre with
  | nil => intro _; rfl
  | cons j rest ih =>
    intro hpre
    rw [List.cons_append, agentCodeLoop,
      if_neg (fun h => (hpre j (List.mem_cons_self j rest)).1 h.symm),
      if_neg (by simp [(hpre j (List.mem_cons_self j rest)).2])]
    exact ih fun j' hj' => hpre j' (List.mem_cons_of_mem j hj')

/-- C4 (amended): an exact normalized match returns that record's code
provided the input name is nonempty and no record preceding it in load
order matches exactly or clears the token-overlap threshold; the
counterexample shows the original unconditional claim fails when an
earlier record clears the threshold. -/
theorem exact_match_wins_without_earlier_match (nin_data : List NinItem) (name : String)
    (pre post : List NinItem) (it : NinItem)
    (hname : name ≠ "")
    (hsplit : nin_data = pre ++ it :: post)
    (hexact : normalizeName it.ac = normalizeName name)
    (hpre : ∀ j ∈ pre, normalizeName j.ac ≠ normalizeName name ∧ fuzzyGuard name j.ac = false) :
    get_agent_code_by_name nin_data name = it.nin := by
  subst hsplit
  rw [get_agent_code_by_name, if_neg (by simp [hname]),
    agentCodeLoop_append_skip name (it :: post) pre hpre, agentCodeLoop,
    if_pos hexact.symm]

/-- Witness for C4's amended theorem: a one-record table whose only record
matches exactly. -/
theorem exact_match_wins_witness :
    get_agent_code_by_name [⟨"ACME", "B"⟩] "ACME" = "B" :=
  exact_match_wins_without_earlier_match [⟨"ACME", "B"⟩] "ACME" [] []
    ⟨"ACME", "B"⟩ (by decide) rfl rfl (fun j hj => absurd hj (List.not_mem_nil j))

theorem length_flatMap_eq {α β : Type} (f : α → List β) (l : List α) :
    (l.flatMap f).length = (l.map (fun s => (f s).length)).sum := by
  induction l with
  | nil => rfl
  | cons a t ih => simp [List.flatMap_cons, ih]

/-- The orchestration loop of `generate_report` in closed form: the data is
the concatenation of every tenant's rows in registry order, and every
tenant lands in the processed list. -/
theorem generate_report_foldl (env : Env) (nin_data : List NinItem) (pid : ℤ) :
    ∀ (subs : List String) (a : List ReportRow) (p : List String),
      subs.foldl (fun (acc : List ReportRow × List String) sub =>
          (acc.1 ++ get_subdomain_data env nin_data sub pid, acc.2 ++ [sub])) (a, p)
        = (a ++ subs.flatMap (fun s => get_subdomain_data env nin_data s pid), p ++ subs) := by
  intro subs
  induction subs with
  | nil =>
    intro a p
    simp
  | cons s rest ih =>
    intro a p
    rw [List.foldl_cons, ih, List.flatMap_cons]
    simp

theorem generate_report_unfold (env : Env) (nin_data : List NinItem) (pid : ℤ) (now : String) :
    generate_report env nin_data pid now =
      ⟨env.subdomains.flatMap (fun s => get_subdomain_data env nin_data s pid),
       (env.subdomains.flatMap (fun s => get_subdomain_data env nin_data s pid)).length,
       env.subdomains, now⟩ := by
  rw [generate_report, generate_report_foldl env nin_data pid env.subdomains [] []]
  simp

/-- Every failure the per-tenant pipeline can hit — connection acquisition
raising, the main query raising, or the simplified query raising after an
empty main result — is caught and replaced by the mock dataset. -/
theorem get_subdomain_data_mock (env : Env) (nin_data : List NinItem) (sub : String) (pid : ℤ)
    (h : env.connect sub = ConnResult.fail ∨ ∃ c, env.connect sub = ConnResult.ok c ∧
      (c.mainResult = Except.error () ∨
        (c.mainResult = Except.ok [] ∧ c.simpleResult = Except.error ()))) :
    get_subdomain_data env nin_data sub pid = get_mock_data_new_structure nin_data sub pid := by
  rcases h with h | ⟨c, hc, hp⟩
  · rw [get_subdomain_data, h]
  · simp only [get_subdomain_data, hc]
    by_cases ht : check_tables_exist c = true
    · rw [if_pos ht]
      rcases hp with hm | ⟨hm, hs⟩
      · simp [get_real_data_optimized, hm]
      · simp [get_real_data_optimized, get_simplified_data, hm, hs]
    · rw [if_neg ht]

/-- C1: for every configured tenant and period, a connection-acquisition
failure or an exception inside the tenant's query pipeline makes the engine
fall back to the mock dataset for that tenant; the tenant still appears in
`subdomains_processed`, which equals the registry list in iteration order;
the whole report still completes, the failed tenant contributes exactly the
mock dataset's row count, and `total_records` is the total number of rows
across all tenants. -/
theorem generate_report_tenant_failure_isolated (env : Env) (nin_data : List NinItem)
    (period_id : ℤ) (now : String) (sub : String)
    (hfail : env.connect sub = ConnResult.fail ∨ ∃ c, env.connect sub = ConnResult.ok c ∧
      (c.mainResult = Except.error () ∨
        (c.mainResult = Except.ok [] ∧ c.simpleResult = Except.error ()))) :
    (generate_report env nin_data period_id now).subdomains_processed = env.subdomains ∧
      (sub ∈ env.subdomains →
        sub ∈ (generate_report env nin_data period_id now).subdomains_processed) ∧
      get_subdomain_data env nin_data sub period_id =
        get_mock_data_new_structure nin_data sub period_id ∧
      (get_subdomain_data env nin_data sub period_id).length =
        (get_mock_data_new_structure nin_data sub period_id).length ∧
      (generate_report env nin_data period_id now).total_records =
        (env.subdomains.map
          (fun s => (get_subdomain_data env nin_data s period_id).length)).sum := by
  have hmock := get_subdomain_data_mock env nin_data sub period_id hfail
  have hunfold := generate_report_unfold env nin_data period_id now
  refine ⟨?_, ?_, hmock, by rw [hmock], ?_⟩
  · rw [hunfold]
  · intro h
    rw [hunfold]
    exact h
  · rw [hunfold]
    exact length_flatMap_eq _ _

/-- Witness for C1: a one-tenant registry whose connection always fails. -/
theorem generate_report_tenant_failure_isolated_witness :
    get_subdomain_data (Env.mk ["a"] (fun _ => ConnResult.fail)) [] "a" 0 =
      get_mock_data_new_structure [] "a" 0 :=
  (generate_report_tenant_failure_isolated (Env.mk ["a"] (fun _ => ConnResult.fail))
    [] 0 "" "a" (Or.inl rfl)).2.2.1

/-- Fold invariant for the grouping loop: a property holding for every
freshly created group and preserved by accumulation holds for every entry
of `variables_data`. -/
theorem foldl_insertRow_forall (dist : List (ℤ × ℚ)) (P : String × VarData → Prop) :
    ∀ (rows : List QueryRow) (acc : List (String × VarData)),
      (∀ r ∈ rows, P (r.variable_name, accumRow dist (initVarData r) r)) →
      (∀ r ∈ rows, ∀ k vd, P (k, vd) → P (k, accumRow dist vd r)) →
      (∀ e ∈ acc, P e) →
      ∀ e ∈ rows.foldl (insertRow dist) acc, P e := by
  intro rows
  induction rows with
  | nil =>
    intro acc _ _ hacc
    exact hacc
  | cons r rest ih =>
    intro acc hinit hstep hacc
    rw [List.foldl_cons]
    apply ih
    · exact fun r' hr' => hinit r' (List.mem_cons_of_mem r hr')
    · exact fun r' hr' => hstep r' (List.mem_cons_of_mem r hr')
    · intro e he
      rw [insertRow] at he
      by_cases hskip : skipVariable r.variable_name = true
      · rw [if_pos hskip] at he
        exact hacc e he
      · rw [if_neg hskip] at he
        by_cases hfound : ((acc.find? (fun e => e.1 == r.variable_name)).isSome) = true
        · rw [if_pos hfound] at he
          rw [updateAssoc] at he
          rcases List.mem_map.1 he with ⟨e0, he0, heq⟩
          by_cases hk : e0.1 = r.variable_name
          · rw [if_pos hk] at heq
            subst heq
            exact hstep r (List.mem_cons_self r rest) e0.1 e0.2 (hacc e0 he0)
          · rw [if_neg hk] at heq
            subst heq
            exact hacc e0 he0
        · rw [if_neg hfound] at he
          rcases List.mem_append.1 he with he | he
          · exact hacc e he
          · rcases List.mem_singleton.1 he with rfl
            exact hinit r (List.mem_cons_self r rest)

/-- Since the main query keeps only liquidation rows with `goal > 0`
(`WHERE l.goal > 0`) and the vendor aggregates are sums or averages of
positive goals (or the `COALESCE` default 0), every group accumulates a
positive assigned-goal total and a nonnegative distributed-goal total. -/
theorem buildVars_pos (dist : List (ℤ × ℚ)) (rows : List QueryRow)
    (hrow : ∀ r ∈ rows, 0 < r.meta_asignada_agente.getD 0 ∧ 0 ≤ r.meta_distribuida_vendors) :
    ∀ e ∈ buildVariablesData dist rows,
      0 < e.2.total_meta_asignada ∧ 0 ≤ e.2.total_meta_distribuida := by
  apply foldl_insertRow_forall dist
    (fun e => 0 < e.2.total_meta_asignada ∧ 0 ≤ e.2.total_meta_distribuida) rows []
  · intro r hr
    simp only [accumRow, initVarData]
    constructor
    · have := (hrow r hr).1
      linarith
    · have := (hrow r hr).2
      linarith
  · intro r hr k vd hP
    simp only [accumRow]
    constructor
    · have h1 := (hrow r hr).1
      have h2 := hP.1
      linarith
    · have h1 := (hrow r hr).2
      have h2 := hP.2
      linarith
  · intro e he
    exact absurd he (List.not_mem_nil e)

/-- Group keys come from row variable names, so a report whose query rows
never carry the display name `"TOTAL"` has no group keyed `"TOTAL"`. -/
theorem buildVars_keys (dist : List (ℤ × ℚ)) (rows : List QueryRow)
    (hn : ∀ r ∈ rows, r.variable_name ≠ "TOTAL") :
    ∀ e ∈ buildVariablesData dist rows, e.1 ≠ "TOTAL" := by
  apply foldl_insertRow_forall dist (fun e => e.1 ≠ "TOTAL") rows []
  · intro r hr
    exact hn r hr
  · intro r _ k vd hP
    exact hP
  · intro e he
    exact absurd he (List.not_mem_nil e)

theorem varsSum_pos (f : VarData → ℚ) (vars : List (String × VarData)) (hne : vars ≠ [])
    (hpos : ∀ e ∈ vars, 0 < f e.2) : 0 < varsSum f vars := by
  rw [varsSum]
  apply List.sum_pos
  · intro x hx
    rcases List.mem_map.1 hx with ⟨e, he, rfl⟩
    exact hpos e he
  · exact fun h => hne (List.map_eq_nil_iff.mp h)

theorem varsSum_nonneg (f : VarData → ℚ) (vars : List (String × VarData))
    (h : ∀ e ∈ vars, 0 ≤ f e.2) : 0 ≤ varsSum f vars := by
  rw [varsSum]
  apply List.sum_nonneg
  intro x hx
  rcases List.mem_map.1 hx with ⟨e, he, rfl⟩
  exact h e he

/-- When every group has a positive assigned-goal total (so the
`ZeroDivisionError` branch at report_service.py:470 is unreachable) and
there is at least one group, the rows-and-total construction is exactly
the per-variable rows followed by one TOTAL row. -/
theorem buildReport_eq (nin_data : List NinItem) (subdomain : String) (period_id : ℤ)
    (period_info : String) (vars : List (String × VarData))
    (hne : vars ≠ [])
    (hpos : ∀ e ∈ vars, 0 < e.2.total_meta_asignada) :
    buildReport nin_data subdomain period_id period_info vars =
      vars.map (mkVarRow nin_data subdomain period_info
        (if 0 < vars.length then round2 ((completedCount vars : ℚ) / vars.length * 100) else 0)) ++
      [mkTotalRow nin_data subdomain period_info
        (varsSum VarData.total_meta_asignada vars)
        (varsSum VarData.total_meta_distribuida vars)
        (varsSum VarData.total_incentivo_asignado vars)
        (varsSum VarData.total_incentivo_distribuido vars)
        (completedCount vars) vars.length] := by
  have hsma : 0 < varsSum VarData.total_meta_asignada vars := varsSum_pos _ vars hne hpos
  simp only [buildReport]
  rw [if_neg (fun h => absurd h.2 (ne_of_gt hsma)), if_neg (by simp [List.isEmpty_iff, hne])]

/-- The per-variable rows' money fields sum to the corresponding
accumulator sums once every accumulated total is exact at two decimals. -/
theorem varRows_field_sum (nin_data : List NinItem) (subdomain period_info : String)
    (cpct : ℚ) (vars : List (String × VarData)) (g : VarData → ℚ) (proj : ReportRow → ℚ)
    (hproj : ∀ e : String × VarData,
      proj (mkVarRow nin_data subdomain period_info cpct e) = round2 (g e.2))
    (hcent : ∀ e ∈ vars, cent (g e.2)) :
    ((vars.map (mkVarRow nin_data subdomain period_info cpct)).map proj).sum = varsSum g vars ∧
      round2 (varsSum g vars) = varsSum g vars := by
  constructor
  · rw [List.map_map]
    have h1 : vars.map (proj ∘ mkVarRow nin_data subdomain period_info cpct) =
        vars.map (fun e => g e.2) := by
      apply List.map_congr_left
      intro e he
      show proj (mkVarRow nin_data subdomain period_info cpct e) = g e.2
      rw [hproj e, round2_cent (hcent e he)]
    rw [h1, varsSum]
  · apply round2_cent
    rw [varsSum]
    apply cent_sum
    intro x hx
    rcases List.mem_map.1 hx with ⟨e, he, rfl⟩
    exact hcent e he

/-- C2 counterexample: the mock fallback path emits no TOTAL row at all —
its output for an arbitrary tenant and period contains zero rows whose
variable name is `"TOTAL"`, contradicting "every path ... contains exactly
one synthesized TOTAL row". -/
theorem mock_path_has_no_total_row :
    ((get_mock_data_new_structure [] "x" 1).filter
      (fun r => r.«variable» == "TOTAL")).length = 0 ∧
      (get_mock_data_new_structure [] "x" 1).length = 6 := by
  constructor
  · rfl
  · rfl

/-- C2 (amended): on the real and simplified query paths (the shared
grouping/derivation tail), under the query's row guarantees
(`l.goal > 0`, vendor aggregates nonnegative) and with at least one
retained variable none of which is itself named TOTAL, the output is the
per-variable rows followed by exactly one TOTAL row; that row's assigned
and distributed goal and incentive fields are the two-decimal rounding of
the sums of the corresponding accumulated per-variable totals, which equal
the sums of the same fields over the non-TOTAL rows whenever every
accumulated total is exact at two decimals.  (The mock path emits no TOTAL
row — see the counterexample.) -/
theorem total_row_appended_and_sums (nin_data : List NinItem) (dist : List (ℤ × ℚ))
    (subdomain : String) (period_id : ℤ) (period_info : String) (rows : List QueryRow)
    (hrow : ∀ r ∈ rows, 0 < r.meta_asignada_agente.getD 0 ∧ 0 ≤ r.meta_distribuida_vendors)
    (hne : buildVariablesData dist rows ≠ [])
    (hnames : ∀ r ∈ rows, r.variable_name ≠ "TOTAL") :
    (((processQueryRows nin_data dist subdomain period_id period_info rows).filter
        (fun r => r.«variable» == "TOTAL")).length = 1) ∧
      ∃ t : ReportRow,
        processQueryRows nin_data dist subdomain period_id period_info rows =
          (processQueryRows nin_data dist subdomain period_id period_info rows).dropLast
            ++ [t] ∧
        t.«variable» = "TOTAL" ∧
        (∀ r ∈ (processQueryRows nin_data dist subdomain period_id period_info rows).dropLast,
          r.«variable» ≠ "TOTAL") ∧
        t.meta_asignada =
          round2 (varsSum VarData.total_meta_asignada (buildVariablesData dist rows)) ∧
        t.meta_distribuida =
          round2 (varsSum VarData.total_meta_distribuida (buildVariablesData dist rows)) ∧
        t.incentivo_asignado =
          round2 (varsSum VarData.total_incentivo_asignado (buildVariablesData dist rows)) ∧
        t.incentivo_distribuido =
          round2 (varsSum VarData.total_incentivo_distribuido (buildVariablesData dist rows)) ∧
        ((∀ e ∈ buildVariablesData dist rows,
            cent e.2.total_meta_asignada ∧ cent e.2.total_meta_distribuida ∧
              cent e.2.total_incentivo_asignado ∧ cent e.2.total_incentivo_distribuido) →
          t.meta_asignada =
            (((processQueryRows nin_data dist subdomain period_id period_info rows).dropLast).map
              ReportRow.meta_asignada).sum ∧
          t.meta_distribuida =
            (((processQueryRows nin_data dist subdomain period_id period_info rows).dropLast).map
              ReportRow.meta_distribuida).sum ∧
          t.incentivo_asignado =
            (((processQueryRows nin_data dist subdomain period_id period_info rows).dropLast).map
              ReportRow.incentivo_asignado).sum ∧
          t.incentivo_distribuido =
            (((processQueryRows nin_data dist subdomain period_id period_info rows).dropLast).map
              ReportRow.incentivo_distribuido).sum) := by
  have hkeys := buildVars_keys dist rows hnames
  have hout : processQueryRows nin_data dist subdomain period_id period_info rows =
      (buildVariablesData dist rows).map (mkVarRow nin_data subdomain period_info
        (if 0 < (buildVariablesData dist rows).length then
          round2 ((completedCount (buildVariablesData dist rows) : ℚ) /
            (buildVariablesData dist rows).length * 100) else 0)) ++
      [mkTotalRow nin_data subdomain period_info
        (varsSum VarData.total_meta_asignada (buildVariablesData dist rows))
        (varsSum VarData.total_meta_distribuida (buildVariablesData dist rows))
        (varsSum VarData.total_incentivo_asignado (buildVariablesData dist rows))
        (varsSum VarData.total_incentivo_distribuido (buildVariablesData dist rows))
        (completedCount (buildVariablesData dist rows))
        (buildVariablesData dist rows).length] := by
    rw [processQueryRows]
    exact buildReport_eq _ _ _ _ _ hne
      (fun e he => (buildVars_pos dist rows hrow e he).1)
  rw [hout, List.dropLast_concat]
  have hvarnames : ∀ r ∈ (buildVariablesData dist rows).map (mkVarRow nin_data subdomain
      period_info (if 0 < (buildVariablesData dist rows).length then
        round2 ((completedCount (buildVariablesData dist rows) : ℚ) /
          (buildVariablesData dist rows).length * 100) else 0)),
      r.«variable» ≠ "TOTAL" := by
    intro r hrm
    rcases List.mem_map.1 hrm with ⟨e, he, rfl⟩
    exact hkeys e he
  constructor
  · rw [List.filter_append]
    have h1 : ((buildVariablesData dist rows).map (mkVarRow nin_data subdomain period_info
        (if 0 < (buildVariablesData dist rows).length then
          round2 ((completedCount (buildVariablesData dist rows) : ℚ) /
            (buildVariablesData dist rows).length * 100) else 0))).filter
        (fun r => r.«variable» == "TOTAL") = [] := by
      rw [List.filter_eq_nil_iff]
      intro r hrm
      simp [hvarnames r hrm]
    rw [h1]
    rfl
  · refine ⟨_, rfl, rfl, hvarnames, rfl, rfl, rfl, rfl, ?_⟩
    intro hcent
    refine ⟨?_, ?_, ?_, ?_⟩
    · have h := varRows_field_sum nin_data subdomain period_info
        (if 0 < (buildVariablesData dist rows).length then
          round2 ((completedCount (buildVariablesData dist rows) : ℚ) /
            (buildVariablesData dist rows).length * 100) else 0)
        (buildVariablesData dist rows) VarData.total_meta_asignada ReportRow.meta_asignada
        (fun e => rfl) (fun e he => (hcent e he).1)
      show round2 (varsSum VarData.total_meta_asignada (buildVariablesData dist rows)) = _
      rw [h.2, ← h.1]
    · have h := varRows_field_sum nin_data subdomain period_info
        (if 0 < (buildVariablesData dist rows).length then
          round2 ((completedCount (buildVariablesData dist rows) : ℚ) /
            (buildVariablesData dist rows).length * 100) else 0)
        (buildVariablesData dist rows) VarData.total_meta_distribuida ReportRow.meta_distribuida
        (fun e => rfl) (fun e he => (hcent e he).2.1)
      show round2 (varsSum VarData.total_meta_distribuida (buildVariablesData dist rows)) = _
      rw [h.2, ← h.1]
    · have h := varRows_field_sum nin_data subdomain period_info
        (if 0 < (buildVariablesData dist rows).length then
          round2 ((completedCount (buildVariablesData dist rows) : ℚ) /
            (buildVariablesData dist rows).length * 100) else 0)
        (buildVariablesData dist rows) VarData.total_incentivo_asignado ReportRow.incentivo_asignado
        (fun e => rfl) (fun e he => (hcent e he).2.2.1)
      show round2 (varsSum VarData.total_incentivo_asignado (buildVariablesData dist rows)) = _
      rw [h.2, ← h.1]
    · have h := varRows_field_sum nin_data subdomain period_info
        (if 0 < (buildVariablesData dist rows).length then
          round2 ((completedCount (buildVariablesData dist rows) : ℚ) /
            (buildVariablesData dist rows).length * 100) else 0)
        (buildVariablesData dist rows) VarData.total_incentivo_distribuido ReportRow.incentivo_distribuido
        (fun e => rfl) (fun e he => (hcent e he).2.2.2)
      show round2 (varsSum VarData.total_incentivo_distribuido (buildVariablesData dist rows)) = _
      rw [h.2, ← h.1]

/-- Witness for C2's amended theorem at a concrete one-row query result. -/
theorem total_row_appended_and_sums_witness :
    (((processQueryRows [] [] "x" 1 "P"
        [⟨"V1", 1, some 1, 0, Option.none, 0, 0, Option.none, Option.none, 2, 1⟩]).filter
      (fun r => r.«variable» == "TOTAL")).length = 1) :=
  (total_row_appended_and_sums [] [] "x" 1 "P"
    [⟨"V1", 1, some 1, 0, Option.none, 0, 0, Option.none, Option.none, 2, 1⟩]
    (by decide) (by decide) (by decide)).1

/-- With no retained variable the construction returns the empty row list
(the source builds no rows and skips the TOTAL append). -/
theorem buildReport_nil (nin_data : List NinItem) (subdomain : String) (period_id : ℤ)
    (period_info : String) :
    buildReport nin_data subdomain period_id period_info [] = [] := by
  simp [buildReport, varsSum]

/-- Every mock row's two percentages satisfy the guarded division formulas
over that row's own assigned/distributed fields. -/
theorem mock_pct_formulas (nin_data : List NinItem) (subdomain : String) (period_id : ℤ) :
    List.Forall (fun row : ReportRow =>
      row.porcentaje_meta =
        (if 0 < row.meta_asignada then
          round2 (100 * row.meta_distribuida / row.meta_asignada) else 0) ∧
      row.porcentaje_ejecucion_incentivo =
        (if 0 < row.incentivo_asignado then
          round2 (100 * row.incentivo_distribuido / row.incentivo_asignado) else 0))
    (get_mock_data_new_structure nin_data subdomain period_id) := by
  rw [List.forall_iff_forall_mem]
  intro r hr
  rw [get_mock_data_new_structure] at hr
  rcases List.mem_map.1 hr with ⟨v, hv, rfl⟩
  simp only [mock_variables_data, List.mem_cons, List.not_mem_nil, or_false] at hv
  rcases hv with rfl | rfl | rfl | rfl | rfl | rfl <;>
    refine ⟨?_, ?_⟩ <;> norm_num [mkMockRow, pct_comm, round2_zero]

/-- C3: every produced row's goal-completion percentage is
`round2 (100 * D / A)` over that row's accumulated distributed/assigned
goals when the assigned goal is positive and exactly 0 otherwise, and
likewise for the incentive-execution percentage over the accumulated
incentives; the one unguarded division of the source (the TOTAL row's
compliance percentage, report_service.py:470) never divides by zero under
the query row guarantees; and the mock rows satisfy the same formulas over
their own fields. -/
theorem percentage_formulas_guarded (nin_data : List NinItem) (dist : List (ℤ × ℚ))
    (subdomain : String) (period_id : ℤ) (period_info : String) (rows : List QueryRow)
    (hrow : ∀ r ∈ rows, 0 < r.meta_asignada_agente.getD 0 ∧ 0 ≤ r.meta_distribuida_vendors) :
    List.Forall (fun row : ReportRow => ∃ A D Ai Di : ℚ,
        row.meta_asignada = round2 A ∧ row.meta_distribuida = round2 D ∧
        row.incentivo_asignado = round2 Ai ∧ row.incentivo_distribuido = round2 Di ∧
        row.porcentaje_meta = (if 0 < A then round2 (100 * D / A) else 0) ∧
        row.porcentaje_ejecucion_incentivo =
          (if 0 < Ai then round2 (100 * Di / Ai) else 0))
      (processQueryRows nin_data dist subdomain period_id period_info rows) ∧
      ¬(0 < varsSum VarData.total_meta_distribuida (buildVariablesData dist rows) ∧
        varsSum VarData.total_meta_asignada (buildVariablesData dist rows) = 0) ∧
      List.Forall (fun row : ReportRow =>
        row.porcentaje_meta =
          (if 0 < row.meta_asignada then
            round2 (100 * row.meta_distribuida / row.meta_asignada) else 0) ∧
        row.porcentaje_ejecucion_incentivo =
          (if 0 < row.incentivo_asignado then
            round2 (100 * row.incentivo_distribuido / row.incentivo_asignado) else 0))
      (get_mock_data_new_structure nin_data subdomain period_id) := by
  have hpos' := buildVars_pos dist rows hrow
  by_cases hne : buildVariablesData dist rows = []
  · refine ⟨?_, ?_, mock_pct_formulas nin_data subdomain period_id⟩
    · have hempty : processQueryRows nin_data dist subdomain period_id period_info rows = [] := by
        rw [processQueryRows, hne, buildReport_nil]
      rw [hempty]
      exact trivial
    · rw [hne]
      intro h
      have : varsSum VarData.total_meta_distribuida [] = 0 := rfl
      rw [this] at h
      exact absurd h.1 (lt_irrefl 0)
  · have hsma : 0 < varsSum VarData.total_meta_asignada (buildVariablesData dist rows) :=
      varsSum_pos _ _ hne (fun e he => (hpos' e he).1)
    have hout : processQueryRows nin_data dist subdomain period_id period_info rows =
        (buildVariablesData dist rows).map (mkVarRow nin_data subdomain period_info
          (if 0 < (buildVariablesData dist rows).length then
            round2 ((completedCount (buildVariablesData dist rows) : ℚ) /
              (buildVariablesData dist rows).length * 100) else 0)) ++
        [mkTotalRow nin_data subdomain period_info
          (varsSum VarData.total_meta_asignada (buildVariablesData dist rows))
          (varsSum VarData.total_meta_distribuida (buildVariablesData dist rows))
          (varsSum VarData.total_incentivo_asignado (buildVariablesData dist rows))
          (varsSum VarData.total_incentivo_distribuido (buildVariablesData dist rows))
          (completedCount (buildVariablesData dist rows))
          (buildVariablesData dist rows).length] := by
      rw [processQueryRows]
      exact buildReport_eq _ _ _ _ _ hne (fun e he => (hpos' e he).1)
    refine ⟨?_, ?_, mock_pct_formulas nin_data subdomain period_id⟩
    · rw [hout, List.forall_iff_forall_mem]
      intro r hrm
      rcases List.mem_append.1 hrm with hrm | hrm
      · rcases List.mem_map.1 hrm with ⟨e, he, rfl⟩
        refine ⟨e.2.total_meta_asignada, e.2.total_meta_distribuida,
          e.2.total_incentivo_asignado, e.2.total_incentivo_distribuido,
          rfl, rfl, rfl, rfl, ?_, ?_⟩
        · simp only [mkVarRow]
          rw [pct_comm]
        · simp only [mkVarRow]
          rw [pct_comm]
      · rcases List.mem_singleton.1 hrm with rfl
        refine ⟨varsSum VarData.total_meta_asignada (buildVariablesData dist rows),
          varsSum VarData.total_meta_distribuida (buildVariablesData dist rows),
          varsSum VarData.total_incentivo_asignado (buildVariablesData dist rows),
          varsSum VarData.total_incentivo_distribuido (buildVariablesData dist rows),
          rfl, rfl, rfl, rfl, ?_, ?_⟩
        · simp only [mkTotalRow]
          rw [if_pos hsma]
          by_cases hd : 0 < varsSum VarData.total_meta_distribuida (buildVariablesData dist rows)
          · rw [if_pos hd, pct_comm]
          · rw [if_neg hd]
            have hz : varsSum VarData.total_meta_distribuida (buildVariablesData dist rows) = 0 :=
              le_antisymm (not_lt.1 hd) (varsSum_nonneg _ _ (fun e he => (hpos' e he).2))
            rw [hz, mul_zero, zero_div, round2_zero]
        · simp only [mkTotalRow]
          rw [pct_comm]
    · intro h
      exact absurd h.2 (ne_of_gt hsma)

/-- Witness for C3: its mock-path formulas at a concrete tenant. -/
theorem percentage_formulas_guarded_witness :
    List.Forall (fun row : ReportRow =>
      row.porcentaje_meta =
        (if 0 < row.meta_asignada then
          round2 (100 * row.meta_distribuida / row.meta_asignada) else 0) ∧
      row.porcentaje_ejecucion_incentivo =
        (if 0 < row.incentivo_asignado then
          round2 (100 * row.incentivo_distribuido / row.incentivo_asignado) else 0))
    (get_mock_data_new_structure [] "x" 1) :=
  (percentage_formulas_guarded [] [] "x" 1 "P"
    [⟨"V1", 1, some 1, 0, Option.none, 0, 0, Option.none, Option.none, 2, 1⟩]
    (by decide)).2.2

/-- C7: every row of one tenant's real/simplified output — per-variable
rows and the TOTAL row alike — carries the same
`porcentaje_variables_completadas`, namely `round2` of 100 times the
number of the tenant's variables with positive assigned goal whose
distributed goal reached it, divided by the number of the tenant's
variables. -/
theorem variables_completed_pct_uniform (nin_data : List NinItem) (dist : List (ℤ × ℚ))
    (subdomain : String) (period_id : ℤ) (period_info : String) (rows : List QueryRow)
    (hrow : ∀ r ∈ rows, 0 < r.meta_asignada_agente.getD 0 ∧ 0 ≤ r.meta_distribuida_vendors)
    (hne : buildVariablesData dist rows ≠ []) :
    List.Forall (fun row : ReportRow =>
        row.porcentaje_variables_completadas =
          round2 (100 * (completedCount (buildVariablesData dist rows) : ℚ) /
            ((buildVariablesData dist rows).length : ℚ)))
      (processQueryRows nin_data dist subdomain period_id period_info rows) := by
  have hpos' := buildVars_pos dist rows hrow
  have hlen : 0 < (buildVariablesData dist rows).length := List.length_pos.2 hne
  have hout : processQueryRows nin_data dist subdomain period_id period_info rows =
      (buildVariablesData dist rows).map (mkVarRow nin_data subdomain period_info
        (if 0 < (buildVariablesData dist rows).length then
          round2 ((completedCount (buildVariablesData dist rows) : ℚ) /
            (buildVariablesData dist rows).length * 100) else 0)) ++
      [mkTotalRow nin_data subdomain period_info
        (varsSum VarData.total_meta_asignada (buildVariablesData dist rows))
        (varsSum VarData.total_meta_distribuida (buildVariablesData dist rows))
        (varsSum VarData.total_incentivo_asignado (buildVariablesData dist rows))
        (varsSum VarData.total_incentivo_distribuido (buildVariablesData dist rows))
        (completedCount (buildVariablesData dist rows))
        (buildVariablesData dist rows).length] := by
    rw [processQueryRows]
    exact buildReport_eq _ _ _ _ _ hne (fun e he => (hpos' e he).1)
  rw [hout, List.forall_iff_forall_mem]
  intro r hrm
  rcases List.mem_append.1 hrm with hrm | hrm
  · rcases List.mem_map.1 hrm with ⟨e, he, rfl⟩
    simp only [mkVarRow]
    rw [if_pos hlen, round2_round2, pct_comm]
  · rcases List.mem_singleton.1 hrm with rfl
    simp only [mkTotalRow]
    rw [if_pos hlen, pct_comm]

/-- Witness for C7 at a concrete one-row query result. -/
theorem variables_completed_pct_uniform_witness :
    List.Forall (fun row : ReportRow =>
        row.porcentaje_variables_completadas =
          round2 (100 * (completedCount (buildVariablesData []
              [⟨"V1", 1, some 1, 0, Option.none, 0, 0, Option.none, Option.none, 2, 1⟩]) : ℚ) /
            ((buildVariablesData []
              [⟨"V1", 1, some 1, 0, Option.none, 0, 0, Option.none, Option.none, 2, 1⟩]).length : ℚ)))
      (processQueryRows [] [] "x" 1 "P"
        [⟨"V1", 1, some 1, 0, Option.none, 0, 0, Option.none, Option.none, 2, 1⟩]) :=
  variables_completed_pct_uniform [] [] "x" 1 "P"
    [⟨"V1", 1, some 1, 0, Option.none, 0, 0, Option.none, Option.none, 2, 1⟩]
    (by decide) (by decide)
